import Mathlib

/-!
# Deferred lighting pass and HDR pass

A shallow embedding of `SceneLighting.cpp` and `HDRRenderer.cpp`.

* Objects live on a heap and are referred to by address (`Ptr`); pointer
  comparison in the source is address comparison here.
* Every call that leaves the two classes (GL entry points, methods of the
  shader program, texture, framebuffer and light collaborators, `cerr`) is
  appended to the call log of the `World`, in program order.
* `glm` values are floating point; their types and operations are the fields
  of a `Glm` record and stay uninterpreted.
* The `int` counters of `sendLightsToShader` are mathematical integers: a
  counter only overflows with 2^31 lights of one variant in the registry.
* `assert` is taken as enabled: a failed assertion ends the run.
-/

namespace gfx

/-- Address of a heap object. -/
abbrev Ptr := Nat

/-- The null pointer. -/
def NULL : Ptr := 0

/-- Modelled from the spec: `AbstractLight.h` is not among the sources. The
variant tag returned by `getType()` is one of Directional, Point, Spot; any
other value the `default:` branch of the switch can see is `Other`. -/
inductive LightType
  | Directional
  | Point
  | Spot
  | Other (raw : Nat)
  deriving DecidableEq

/-- Modelled from the spec: the glm library is external. Scalars, 3-vectors and
4x4 matrices are floating point and are kept abstract, with the operations the
two source files use. `lit m e` is the float literal with decimal value
`m / 10^e`; `vec3i` is `glm::vec3` applied to three `int`s. -/
structure Glm where
  F : Type
  Vec3 : Type
  Mat4 : Type
  lit : Int → Nat → F
  vec3 : F → F → F → Vec3
  vec3i : Int → Int → Int → Vec3
  scale : Vec3 → F → Vec3
  inverse : Mat4 → Mat4
  mat4OfMat3 : Mat4 → Mat4

/-- Slots of `FrameBuffer::AttachmentType` used by the two files. -/
inductive AttachmentType
  | ColourAttachment0
  | ColourAttachment1
  | DepthStencil
  | End
  deriving DecidableEq

/-- Primitive modes passed to `glDrawArrays`. -/
inductive DrawMode
  | GL_TRIANGLE_STRIP
  | GL_TRIANGLES
  deriving DecidableEq

/-- One call leaving the two classes, with its arguments. -/
inductive Call (g : Glm)
  | programBind (program : Ptr)
  | setUniform1i (program : Ptr) (name : String) (v : Int)
  | setUniform1f (program : Ptr) (name : String) (v : g.F)
  | setUniformVec (program : Ptr) (name : String) (v : g.Vec3)
  | setUniformMatrix (program : Ptr) (name : String) (m : g.Mat4)
  | textureBind (tex : Ptr)
  | textureUnbind (tex : Ptr)
  | textureCubeBind (tex : Ptr)
  | vaoBind (vao : Ptr)
  | vaoUnbind
  | fboBindRW (fbo : Ptr)
  | fboUnbindRW
  | attachTexture2D (fbo : Ptr) (tex : Ptr) (slot : AttachmentType)
  | isComplete
  | glClearColourBuffer
  | glDepthMask (flag : Bool)
  | glDepthFuncLEqual
  | glDisableDepthTest
  | glDrawArrays (mode : DrawMode) (first : Int) (count : Int)
  | sendToProgram (light : Ptr) (i : Int) (program : Ptr)
  | setDirection (light : Ptr) (v : g.Vec3)
  | setPosition (light : Ptr) (v : g.Vec3)
  | setColour (light : Ptr) (v : g.Vec3)
  | setInnerCutOff (light : Ptr) (v : g.F)
  | setOuterCutOff (light : Ptr) (v : g.F)
  | setLinearAttenuation (light : Ptr) (v : g.F)
  | setQuadraticAttenuation (light : Ptr) (v : g.F)
  | cerrUnknownLightType (t : LightType)

/-- A draw that was executed, with the depth-write mask in effect when it was
issued. -/
structure Draw where
  mode : DrawMode
  first : Int
  count : Int
  depthWrite : Bool
  deriving DecidableEq

/-- Everything outside the two renderer objects: the object heap (variant tag
of each light, unit of each texture, next free address), the GL context (the
depth-write mask, the draws executed so far, whether the bound framebuffer is
complete after a given history of calls) and the log of calls. -/
structure World (g : Glm) where
  lightType : Ptr → LightType
  unit : Ptr → Int
  nextAddr : Ptr
  fbComplete : List (Call g) → Bool
  depthMask : Bool
  draws : List Draw
  calls : List (Call g)

/-- Ways a run stops without returning. -/
inductive Fault
  | assertionFailed
  | undefinedBehaviour
  deriving DecidableEq

variable {g : Glm}

/-- Append one call to the log. -/
def World.emit (w : World g) (c : Call g) : World g :=
  { w with calls := w.calls ++ [c] }

/-- The calls logged between `w` and a later world `w2`. -/
def callsSince (w w2 : World g) : List (Call g) :=
  w2.calls.drop w.calls.length

/-- The draws executed between `w` and a later world `w2`. -/
def drawsSince (w w2 : World g) : List Draw :=
  w2.draws.drop w.draws.length

/-- Effect of `glDepthMask(flag)`: sets the depth-write mask. -/
def glDepthMask (flag : Bool) (w : World g) : World g :=
  { w.emit (.glDepthMask flag) with depthMask := flag }

/-- Effect of `glDrawArrays(mode, first, count)`: the draw runs under the
depth-write mask currently set. -/
def glDrawArrays (mode : DrawMode) (first count : Int) (w : World g) : World g :=
  { w.emit (.glDrawArrays mode first count) with
    draws := w.draws ++ [⟨mode, first, count, w.depthMask⟩] }

/-- Source: `assert(FrameBuffer::isComplete() == true)`. -/
def assertComplete (w : World g) : Except Fault (World g) :=
  if w.fbComplete w.calls then .ok (w.emit .isComplete) else .error .assertionFailed

/-! ## SceneLighting -/

/-- Fields of `gfx::SceneLighting`. -/
structure SceneLighting (g : Glm) where
  program : Ptr
  fbo : Ptr
  gNormal : Ptr
  gAlbedoSpec : Ptr
  gDepth : Ptr
  vao : Ptr
  vbo : Ptr
  skyboxProgram : Ptr
  vaoSkybox : Ptr
  vboSkybox : Ptr
  skyboxTexture : Ptr
  lights : List Ptr
  spot : Ptr
  shadowTexture : Ptr
  shadowLightSpaceTransform : g.Mat4
  viewMatrix : g.Mat4
  projectionMatrix : g.Mat4
  viewPosition : g.Vec3
  viewDirection : g.Vec3

/-- The three running counters of `sendLightsToShader`. -/
structure Counters where
  numDirectional : Int
  numPoint : Int
  numSpot : Int
  deriving DecidableEq

/-- Source: `SceneLighting::addLight`, `lights.push_back(light)`. -/
def SceneLighting.addLight (self : SceneLighting g) (light : Ptr) : SceneLighting g :=
  { self with lights := self.lights ++ [light] }

/-- Body of the range-for of `sendLightsToShader` for one light: the switch
over `light->getType()`, with the post-increment of the matching counter. -/
def sendLightStep (program : Ptr) (acc : Counters × World g) (light : Ptr) :
    Counters × World g :=
  match acc.2.lightType light with
  | .Directional =>
      ({ acc.1 with numDirectional := acc.1.numDirectional + 1 },
        acc.2.emit (.sendToProgram light acc.1.numDirectional program))
  | .Point =>
      ({ acc.1 with numPoint := acc.1.numPoint + 1 },
        acc.2.emit (.sendToProgram light acc.1.numPoint program))
  | .Spot =>
      ({ acc.1 with numSpot := acc.1.numSpot + 1 },
        acc.2.emit (.sendToProgram light acc.1.numSpot program))
  | .Other raw => (acc.1, acc.2.emit (.cerrUnknownLightType (.Other raw)))

/-- Source: `SceneLighting::sendLightsToShader`. -/
def SceneLighting.sendLightsToShader (self : SceneLighting g) (w : World g) : World g :=
  let r := self.lights.foldl (sendLightStep self.program) (⟨0, 0, 0⟩, w)
  r.2.emit (.setUniformVec self.program "LightCount"
    (g.vec3i r.1.numDirectional r.1.numPoint r.1.numSpot))

/-- Source: `std::find(lights.begin(), lights.end(), light)`, as the offset of
the returned iterator from `begin()`; `lights.length` stands for `end()`. -/
def stdFind (lights : List Ptr) (light : Ptr) : Nat :=
  lights.indexOf light

/-- Source: `std::vector::erase(position)`. The iterator has to be
dereferenceable; erasing at `end()` is undefined behaviour. -/
def vectorErase (lights : List Ptr) (position : Nat) : Except Fault (List Ptr) :=
  if position < lights.length then .ok (lights.eraseIdx position)
  else .error .undefinedBehaviour

/-- Source: `SceneLighting::removeLight`. The test is `position > lights.end()`,
as written. -/
def SceneLighting.removeLight (self : SceneLighting g) (light : Ptr) :
    Except Fault (Int × SceneLighting g) :=
  let position := stdFind self.lights light
  if position > self.lights.length then
    .ok (-1, self)
  else
    match vectorErase self.lights position with
    | .error e => .error e
    | .ok ls => .ok (0, { self with lights := ls })

/-- Source: `SceneLighting::setShadowTexture`. Reading `shadowTexture->unit`
through a null pointer is undefined behaviour. -/
def SceneLighting.setShadowTexture (self : SceneLighting g) (w : World g) (tex : Ptr)
    (lightSpaceMtx : g.Mat4) : Except Fault (SceneLighting g × World g) :=
  let self1 : SceneLighting g :=
    if self.shadowTexture ≠ tex then
      { self with shadowTexture := tex, shadowLightSpaceTransform := lightSpaceMtx }
    else self
  let w1 := w.emit (.programBind self1.program)
  if self1.shadowTexture = NULL then .error .undefinedBehaviour
  else
    let w2 := w1.emit (.setUniform1i self1.program "gShadowMap" (w1.unit self1.shadowTexture))
    let matrix := g.inverse lightSpaceMtx
    .ok (self1, w2.emit (.setUniformMatrix self1.program "lightToViewMtx" matrix))

/-- Source: `SceneLighting::beforeRender`. -/
def SceneLighting.beforeRender (_self : SceneLighting g) (w : World g) : World g :=
  glDepthMask false (w.emit .glClearColourBuffer)

/-- Source: `SceneLighting::renderSkybox`. -/
def SceneLighting.renderSkybox (self : SceneLighting g) (w : World g) : World g :=
  let w := w.emit .glDepthFuncLEqual
  let w := w.emit (.programBind self.skyboxProgram)
  let newView := g.mat4OfMat3 self.viewMatrix
  let w := w.emit (.setUniformMatrix self.skyboxProgram "view" newView)
  let w := w.emit (.setUniformMatrix self.skyboxProgram "projection" self.projectionMatrix)
  let w := w.emit (.vaoBind self.vaoSkybox)
  let w := w.emit (.textureCubeBind self.skyboxTexture)
  let w := w.emit (.setUniform1i self.skyboxProgram "skyboxTex" (w.unit self.skyboxTexture))
  glDrawArrays .GL_TRIANGLES 0 36 w

/-- Source: `SceneLighting::render`. -/
def SceneLighting.render (self : SceneLighting g) (w : World g) : World g :=
  let w := w.emit (.programBind self.program)
  let w := w.emit (.textureBind self.gNormal)
  let w := w.emit (.textureBind self.gAlbedoSpec)
  let w := w.emit (.textureBind self.gDepth)
  let w := if self.shadowTexture ≠ NULL then w.emit (.textureBind self.shadowTexture) else w
  let w := w.emit (.setUniform1f self.program "ambientLight.Intensity" (g.lit 5 2))
  let w := w.emit (.setUniformVec self.program "ambientLight.Colour"
    (g.vec3 (g.lit 10 1) (g.lit 10 1) (g.lit 10 1)))
  let w := w.emit (.setDirection self.spot self.viewDirection)
  let w := w.emit (.setPosition self.spot self.viewPosition)
  let w := self.sendLightsToShader w
  let w := w.emit (.setUniformVec self.program "viewPos" self.viewPosition)
  let viewMatrixInv := g.inverse self.viewMatrix
  let w := w.emit (.setUniformMatrix self.program "viewMatrixInv" viewMatrixInv)
  let projMatrixInv := g.inverse self.projectionMatrix
  let w := w.emit (.setUniformMatrix self.program "projMatrixInv" projMatrixInv)
  let w := w.emit (.vaoBind self.vao)
  let w := glDrawArrays .GL_TRIANGLE_STRIP 0 4 w
  let w := w.emit .vaoUnbind
  let w := w.emit (.textureUnbind self.gNormal)
  let w := w.emit (.textureUnbind self.gAlbedoSpec)
  let w := w.emit (.textureUnbind self.gDepth)
  self.renderSkybox w

/-- Source: `SceneLighting::afterRender`. -/
def SceneLighting.afterRender (_self : SceneLighting g) (w : World g) : World g :=
  glDepthMask true w

/-- Modelled from the spec: the classes `DirectionalLight`, `PointLight` and
`SpotLight` are not among the sources. `new` of one of them returns a fresh
address whose object reports the variant tag of its class. -/
def newLight (t : LightType) (w : World g) : Ptr × World g :=
  (w.nextAddr,
    { w with nextAddr := w.nextAddr + 1,
             lightType := fun a => if a = w.nextAddr then t else w.lightType a })

/-- Source: `cubeLightColours[i]`. -/
def cubeLightColours (g : Glm) : Nat → g.Vec3
  | 0 => g.vec3 (g.lit 10 1) (g.lit 0 1) (g.lit 0 1)
  | 1 => g.vec3 (g.lit 0 1) (g.lit 10 1) (g.lit 0 1)
  | 2 => g.vec3 (g.lit 0 1) (g.lit 0 1) (g.lit 10 1)
  | _ => g.scale (g.vec3 (g.lit 10 1) (g.lit 5 1) (g.lit 0 1)) (g.lit 10 0)

/-- Source: `cubeLightPositions[i]`. -/
def cubeLightPositions (g : Glm) : Nat → g.Vec3
  | 0 => g.vec3 (g.lit 15 1) (g.lit 20 1) (g.lit (-25) 1)
  | 1 => g.vec3 (g.lit 15 1) (g.lit 2 1) (g.lit (-15) 1)
  | 2 => g.vec3 (g.lit (-13) 1) (g.lit 10 1) (g.lit (-15) 1)
  | _ => g.vec3 (g.lit 15 1) (g.lit 20 1) (g.lit (-15) 1)

/-- Body of the point-light loop of `setUpTestLights` for one `i`. -/
def setUpPointLight (acc : SceneLighting g × World g) (i : Nat) : SceneLighting g × World g :=
  let (light, w) := newLight .Point acc.2
  let w := w.emit (.setPosition light (cubeLightPositions g i))
  let w := w.emit (.setColour light (cubeLightColours g i))
  let w := w.emit (.setLinearAttenuation light (g.lit 7 1))
  let w := w.emit (.setQuadraticAttenuation light (g.lit 18 1))
  (acc.1.addLight light, w)

/-- Source: `SceneLighting::setUpTestLights`. -/
def SceneLighting.setUpTestLights (self : SceneLighting g) (w : World g) :
    SceneLighting g × World g :=
  let (dir, w) := newLight .Directional w
  let w := w.emit (.setDirection dir (g.vec3 (g.lit (-2) 1) (g.lit (-10) 1) (g.lit (-3) 1)))
  let w := w.emit (.setColour dir (g.vec3 (g.lit 85 2) (g.lit 85 2) (g.lit 75 2)))
  let self := self.addLight dir
  let (spot, w) := newLight .Spot w
  let self : SceneLighting g := { self with spot := spot }
  let w := w.emit (.setInnerCutOff self.spot (g.lit 125 1))
  let w := w.emit (.setOuterCutOff self.spot (g.lit 175 1))
  let w := w.emit (.setLinearAttenuation self.spot (g.lit 1 1))
  let w := w.emit (.setQuadraticAttenuation self.spot (g.lit 8 1))
  let w := w.emit (.setColour self.spot (g.vec3 (g.lit 10 1) (g.lit 33 2) (g.lit 33 2)))
  let self := self.addLight self.spot
  (List.range 4).foldl setUpPointLight (self, w)

/-! ## HDRRenderer -/

/-- Fields of `gfx::HDRRenderer`. -/
structure HDRRenderer where
  program : Ptr
  inFBO : Ptr
  inColour : Ptr
  vao : Ptr
  vbo : Ptr
  inDepth : Ptr
  deriving DecidableEq

/-- Source: `HDRRenderer::setDepthBuffer`. -/
def HDRRenderer.setDepthBuffer (self : HDRRenderer) (w : World g) (depth : Ptr)
    (_hasStencil : Bool) : Except Fault (HDRRenderer × World g) :=
  if self.inDepth = depth then .ok (self, w)
  else if self.inDepth ≠ NULL then
    let w := w.emit (.attachTexture2D self.inFBO self.inDepth .DepthStencil)
    match assertComplete w with
    | .error e => .error e
    | .ok w => .ok (self, w)
  else
    let self : HDRRenderer := { self with inDepth := depth }
    let w := w.emit (.fboBindRW self.inFBO)
    let w := w.emit (.attachTexture2D self.inFBO self.inDepth .DepthStencil)
    match assertComplete w with
    | .error e => .error e
    | .ok w => .ok (self, w.emit .fboUnbindRW)

/-! ## Vocabulary of the statements -/

/-- The three variants the switch of `sendLightsToShader` handles. -/
def LightType.isKnown : LightType → Bool
  | .Other _ => false
  | _ => true

/-- Number of lights of variant `t` in a sequence of lights. -/
def countOf (typeOf : Ptr → LightType) (t : LightType) (lights : List Ptr) : Nat :=
  lights.countP (fun l => decide (typeOf l = t))

/-- The `(light, index)` pairs of the `sendToProgram` calls of a log, in order. -/
def sendCalls (cs : List (Call g)) : List (Ptr × Int) :=
  cs.filterMap fun c =>
    match c with
    | .sendToProgram l i _ => some (l, i)
    | _ => none

/-- What the registry entry at position `i` should be packed with: nothing
when its variant is unknown, else the entry and the number of entries of the
same variant before position `i`. -/
def expectedCall (typeOf : Ptr → LightType) (lights : List Ptr) (i : Nat) :
    Option (Ptr × Int) :=
  match lights[i]? with
  | none => none
  | some l =>
      if (typeOf l).isKnown then
        some (l, ((countOf typeOf (typeOf l) (lights.take i) : Nat) : Int))
      else none

/-- The packing calls expected for a whole registry, in registry order. -/
def expectedCalls (typeOf : Ptr → LightType) (lights : List Ptr) : List (Ptr × Int) :=
  (List.range lights.length).filterMap (expectedCall typeOf lights)

/-- A `setUniformVec` of the uniform named `LightCount`. -/
def isLightCount : Call g → Bool
  | .setUniformVec _ name _ => name == "LightCount"
  | _ => false

/-- A `glDrawArrays` call. -/
def isDraw : Call g → Bool
  | .glDrawArrays _ _ _ => true
  | _ => false

/-- A call made by the loop of `sendLightsToShader`: packing one light into
`program`, or the report of an unknown variant. -/
def isLoopCall (program : Ptr) : Call g → Bool
  | .sendToProgram _ _ p => decide (p = program)
  | .cerrUnknownLightType _ => true
  | _ => false

/-- An `attachTexture2D` call. -/
def isAttach : Call g → Bool
  | .attachTexture2D _ _ _ => true
  | _ => false

/-- A framebuffer completeness check. -/
def isCheck : Call g → Bool
  | .isComplete => true
  | _ => false

/-- The calls `render` makes before it calls `sendLightsToShader`. -/
def renderHead (self : SceneLighting g) : List (Call g) :=
  [.programBind self.program, .textureBind self.gNormal, .textureBind self.gAlbedoSpec,
    .textureBind self.gDepth] ++
  (if self.shadowTexture ≠ NULL then [.textureBind self.shadowTexture] else []) ++
  [.setUniform1f self.program "ambientLight.Intensity" (g.lit 5 2),
    .setUniformVec self.program "ambientLight.Colour"
      (g.vec3 (g.lit 10 1) (g.lit 10 1) (g.lit 10 1)),
    .setDirection self.spot self.viewDirection,
    .setPosition self.spot self.viewPosition]

/-- The calls `render` makes after `sendLightsToShader`, the skybox sub-pass
included. -/
def renderTail (self : SceneLighting g) (unit : Ptr → Int) : List (Call g) :=
  [.setUniformVec self.program "viewPos" self.viewPosition,
    .setUniformMatrix self.program "viewMatrixInv" (g.inverse self.viewMatrix),
    .setUniformMatrix self.program "projMatrixInv" (g.inverse self.projectionMatrix),
    .vaoBind self.vao,
    .glDrawArrays .GL_TRIANGLE_STRIP 0 4,
    .vaoUnbind,
    .textureUnbind self.gNormal,
    .textureUnbind self.gAlbedoSpec,
    .textureUnbind self.gDepth,
    .glDepthFuncLEqual,
    .programBind self.skyboxProgram,
    .setUniformMatrix self.skyboxProgram "view" (g.mat4OfMat3 self.viewMatrix),
    .setUniformMatrix self.skyboxProgram "projection" self.projectionMatrix,
    .vaoBind self.vaoSkybox,
    .textureCubeBind self.skyboxTexture,
    .setUniform1i self.skyboxProgram "skyboxTex" (unit self.skyboxTexture),
    .glDrawArrays .GL_TRIANGLES 0 36]

/-- A `glDepthMask` call. -/
def isDepthMask : Call g → Bool
  | .glDepthMask _ => true
  | _ => false

/-- The world `w` with calls `cs` appended to its log and draws `ds` appended to
its executed draws. -/
def World.extend (w : World g) (cs : List (Call g)) (ds : List Draw) : World g :=
  { w with calls := w.calls ++ cs, draws := w.draws ++ ds }

/-- The calls the loop of `sendLightsToShader` logs when started in world `w`. -/
def loopCalls (self : SceneLighting g) (w : World g) : List (Call g) :=
  callsSince w (self.lights.foldl (sendLightStep self.program) (⟨0, 0, 0⟩, w)).2

/-! ## Concrete values -/

/-- A concrete `glm` to evaluate the definitions on: integers for scalars and
matrices, lists for vectors, negation for `inverse`. -/
@[reducible] def intGlm : Glm where
  F := Int
  Vec3 := List Int
  Mat4 := Int
  lit m _ := m
  vec3 a b c := [a, b, c]
  vec3i a b c := [a, b, c]
  scale v f := v.map (fun x => x * f)
  inverse m := -m
  mat4OfMat3 m := m

/-- A lighting pass with an empty registry and no shadow texture. -/
def demoPass : SceneLighting intGlm where
  program := 1
  fbo := 2
  gNormal := 3
  gAlbedoSpec := 4
  gDepth := 5
  vao := 6
  vbo := 7
  skyboxProgram := 8
  vaoSkybox := 9
  vboSkybox := 10
  skyboxTexture := 11
  lights := []
  spot := 0
  shadowTexture := 0
  shadowLightSpaceTransform := 0
  viewMatrix := 1
  projectionMatrix := 1
  viewPosition := [0, 0, 0]
  viewDirection := [0, 0, 1]

/-- A heap with a directional light at 20, a point light at 21, a spot light
at 22 and lights of an unknown variant elsewhere; every framebuffer check
passes; nothing logged yet. -/
def demoWorld : World intGlm where
  lightType a :=
    if a = 20 then .Directional
    else if a = 21 then .Point
    else if a = 22 then .Spot
    else .Other 9
  unit a := a
  nextAddr := 100
  fbComplete _ := true
  depthMask := true
  draws := []
  calls := []

/-- A HDR pass with no depth buffer set. -/
def demoHDR : HDRRenderer where
  program := 31
  inFBO := 32
  inColour := 33
  vao := 34
  vbo := 35
  inDepth := 0

/-- The registry `[20, 21, 22]`: one light of each known variant. -/
def demoPass3 : SceneLighting intGlm :=
  { demoPass with lights := [20, 21, 22] }

/-- The pass and the world right after `setUpTestLights` ran on `demoPass` in
`demoWorld`. -/
def demoFresh : SceneLighting intGlm × World intGlm :=
  demoPass.setUpTestLights demoWorld

/-! ## The loop of `sendLightsToShader` -/

theorem expectedCalls_snoc (typeOf : Ptr → LightType) (ls : List Ptr) (l : Ptr) :
    expectedCalls typeOf (ls ++ [l]) =
      expectedCalls typeOf ls ++
        (if (typeOf l).isKnown then [(l, ((countOf typeOf (typeOf l) ls : Nat) : Int))]
         else []) := by
  unfold expectedCalls
  rw [List.length_append, List.length_singleton, List.range_succ, List.filterMap_append]
  congr 1
  · apply List.filterMap_congr
    intro i hi
    have hi2 : i < ls.length := List.mem_range.mp hi
    unfold expectedCall
    rw [List.getElem?_append_left hi2, List.take_append_of_le_length (Nat.le_of_lt hi2)]
  · by_cases h : (typeOf l).isKnown = true <;>
      simp [List.filterMap_cons, expectedCall, h]

theorem countOf_snoc (typeOf : Ptr → LightType) (t : LightType) (ls : List Ptr) (l : Ptr) :
    countOf typeOf t (ls ++ [l]) = countOf typeOf t ls + (if typeOf l = t then 1 else 0) := by
  unfold countOf
  rw [List.countP_append]
  by_cases h : typeOf l = t <;> simp [List.countP_cons, h]

theorem sendCalls_append (a b : List (Call g)) :
    sendCalls (a ++ b) = sendCalls a ++ sendCalls b := by
  simp [sendCalls, List.filterMap_append]

/-- The loop of `sendLightsToShader`, started with the three counters at 0:
it only appends to the call log, leaves each counter at the number of lights
of its variant, and packs the lights as `expectedCalls` says. -/
theorem foldl_sendLightStep (program : Ptr) (w : World g) (ls : List Ptr) :
    ∃ new : List (Call g),
      ls.foldl (sendLightStep program) (⟨0, 0, 0⟩, w) =
        (⟨(countOf w.lightType .Directional ls : Nat), (countOf w.lightType .Point ls : Nat),
          (countOf w.lightType .Spot ls : Nat)⟩,
         { w with calls := w.calls ++ new }) ∧
      sendCalls new = expectedCalls w.lightType ls ∧
      ∀ c ∈ new, isLoopCall program c = true := by
  induction ls using List.reverseRecOn with
  | nil => exact ⟨[], by simp [countOf], rfl, by simp⟩
  | append_singleton ls l ih =>
    obtain ⟨new, h1, h2, h3⟩ := ih
    rw [List.foldl_append, h1]
    simp only [List.foldl_cons, List.foldl_nil]
    cases ht : w.lightType l with
    | Directional =>
      refine ⟨new ++ [.sendToProgram l (countOf w.lightType .Directional ls : Nat) program], ?_, ?_, ?_⟩
      · simp [sendLightStep, ht, World.emit, countOf_snoc]
      · rw [sendCalls_append, h2, expectedCalls_snoc]
        simp [sendCalls, ht, LightType.isKnown]
      · intro c hc
        rcases List.mem_append.mp hc with hc | hc
        · exact h3 c hc
        · rw [List.mem_singleton.mp hc]; simp [isLoopCall]
    | Point =>
      refine ⟨new ++ [.sendToProgram l (countOf w.lightType .Point ls : Nat) program], ?_, ?_, ?_⟩
      · simp [sendLightStep, ht, World.emit, countOf_snoc]
      · rw [sendCalls_append, h2, expectedCalls_snoc]
        simp [sendCalls, ht, LightType.isKnown]
      · intro c hc
        rcases List.mem_append.mp hc with hc | hc
        · exact h3 c hc
        · rw [List.mem_singleton.mp hc]; simp [isLoopCall]
    | Spot =>
      refine ⟨new ++ [.sendToProgram l (countOf w.lightType .Spot ls : Nat) program], ?_, ?_, ?_⟩
      · simp [sendLightStep, ht, World.emit, countOf_snoc]
      · rw [sendCalls_append, h2, expectedCalls_snoc]
        simp [sendCalls, ht, LightType.isKnown]
      · intro c hc
        rcases List.mem_append.mp hc with hc | hc
        · exact h3 c hc
        · rw [List.mem_singleton.mp hc]; simp [isLoopCall]
    | Other raw =>
      refine ⟨new ++ [.cerrUnknownLightType (.Other raw)], ?_, ?_, ?_⟩
      · simp [sendLightStep, ht, World.emit, countOf_snoc]
      · rw [sendCalls_append, h2, expectedCalls_snoc]
        simp [sendCalls, ht, LightType.isKnown]
      · intro c hc
        rcases List.mem_append.mp hc with hc | hc
        · exact h3 c hc
        · rw [List.mem_singleton.mp hc]; simp [isLoopCall]

theorem callsSince_append (w : World g) (new : List (Call g)) :
    callsSince w { w with calls := w.calls ++ new } = new := by
  simp [callsSince]

theorem isLoopCall_not_lightCount (program : Ptr) (c : Call g)
    (h : isLoopCall program c = true) :
    isLightCount c = false := by
  cases c <;> simp_all [isLoopCall, isLightCount]

theorem isLoopCall_not_draw (program : Ptr) (c : Call g)
    (h : isLoopCall program c = true) :
    isDraw c = false := by
  cases c <;> simp_all [isLoopCall, isDraw]

/-- The log of `sendLightsToShader`: the calls of the loop, then the one
`LightCount` uniform; nothing else of the world changes. -/
theorem sendLightsToShader_eq (self : SceneLighting g) (w : World g) :
    ∃ loop : List (Call g),
      self.sendLightsToShader w =
        { w with calls := w.calls ++ (loop ++ [.setUniformVec self.program "LightCount"
          (g.vec3i (countOf w.lightType .Directional self.lights : Nat)
            (countOf w.lightType .Point self.lights : Nat)
            (countOf w.lightType .Spot self.lights : Nat))]) } ∧
      sendCalls loop = expectedCalls w.lightType self.lights ∧
      ∀ c ∈ loop, isLoopCall self.program c = true := by
  obtain ⟨loop, h1, h2, h3⟩ := foldl_sendLightStep self.program w self.lights
  refine ⟨loop, ?_, h2, h3⟩
  simp [SceneLighting.sendLightsToShader, h1, World.emit, List.append_assoc]

theorem countOf_remove_unknown (typeOf : Ptr → LightType) (t : LightType)
    (pre post : List Ptr) (u : Ptr) (hu : (typeOf u).isKnown = false) (ht : t.isKnown = true) :
    countOf typeOf t (pre ++ u :: post) = countOf typeOf t (pre ++ post) := by
  have hne : typeOf u ≠ t := by
    intro h
    rw [h] at hu
    rw [hu] at ht
    exact Bool.noConfusion ht
  simp [countOf, List.countP_append, List.countP_cons, hne]

theorem foldl_addLight (self : SceneLighting g) (added : List Ptr) :
    (added.foldl SceneLighting.addLight self).lights = self.lights ++ added := by
  induction added generalizing self with
  | nil => simp
  | cons l ls ih => simp [ih, SceneLighting.addLight]

/-- C1: for every registry, `sendLightsToShader` logs the calls of its loop
followed by one `LightCount` uniform, which is the only `LightCount` uniform
of the call and carries `glm::vec3(D, P, S)` with D, P, S the numbers of
Directional, Point and Spot lights of the registry; a light of unknown variant
changes none of the three numbers, wherever it stands in the registry; and
`addLight` appends, so any sequence of lights is the registry after adding
them in that order. -/
theorem sendLightsToShader_lightCount (self : SceneLighting g) (w : World g) :
    (∃ loop : List (Call g),
      callsSince w (self.sendLightsToShader w) =
        loop ++ [.setUniformVec self.program "LightCount"
          (g.vec3i (countOf w.lightType .Directional self.lights : Nat)
            (countOf w.lightType .Point self.lights : Nat)
            (countOf w.lightType .Spot self.lights : Nat))] ∧
      ∀ c ∈ loop, isLoopCall self.program c = true) ∧
    (callsSince w (self.sendLightsToShader w)).filter isLightCount =
      [.setUniformVec self.program "LightCount"
        (g.vec3i (countOf w.lightType .Directional self.lights : Nat)
          (countOf w.lightType .Point self.lights : Nat)
          (countOf w.lightType .Spot self.lights : Nat))] ∧
    (∀ (pre post : List Ptr) (u : Ptr), self.lights = pre ++ u :: post →
      (w.lightType u).isKnown = false →
        countOf w.lightType .Directional self.lights =
          countOf w.lightType .Directional (pre ++ post) ∧
        countOf w.lightType .Point self.lights = countOf w.lightType .Point (pre ++ post) ∧
        countOf w.lightType .Spot self.lights = countOf w.lightType .Spot (pre ++ post)) ∧
    (∀ added : List Ptr,
      (added.foldl SceneLighting.addLight self).lights = self.lights ++ added) := by
  obtain ⟨loop, h1, _, h3⟩ := sendLightsToShader_eq self w
  rw [h1, callsSince_append]
  refine ⟨⟨loop, rfl, h3⟩, ?_, ?_, foldl_addLight self⟩
  · rw [List.filter_append]
    have hloop : loop.filter isLightCount = [] := by
      rw [List.filter_eq_nil_iff]
      intro c hc
      simp [isLoopCall_not_lightCount self.program c (h3 c hc)]
    rw [hloop]
    simp [isLightCount]
  · intro pre post u hl hu
    rw [hl]
    exact ⟨countOf_remove_unknown _ _ pre post u hu rfl,
      countOf_remove_unknown _ _ pre post u hu rfl,
      countOf_remove_unknown _ _ pre post u hu rfl⟩

theorem expectedCalls_nil (typeOf : Ptr → LightType) : expectedCalls typeOf [] = [] := rfl

/-- The lights packed are the registry entries of a known variant, each once,
in registry order. -/
theorem expectedCalls_fst (typeOf : Ptr → LightType) (ls : List Ptr) :
    (expectedCalls typeOf ls).map Prod.fst = ls.filter (fun l => (typeOf l).isKnown) := by
  induction ls using List.reverseRecOn with
  | nil => rfl
  | append_singleton ls l ih =>
    rw [expectedCalls_snoc, List.map_append, ih, List.filter_append]
    by_cases h : (typeOf l).isKnown = true <;> simp [h]

/-- The indices used for one known variant are 0, 1, ..., n-1 in this order. -/
theorem expectedCalls_dense (typeOf : Ptr → LightType) (t : LightType)
    (ht : t.isKnown = true) (ls : List Ptr) :
    ((expectedCalls typeOf ls).filter (fun p => decide (typeOf p.1 = t))).map Prod.snd =
      (List.range (countOf typeOf t ls)).map Int.ofNat := by
  induction ls using List.reverseRecOn with
  | nil => simp [expectedCalls_nil, countOf]
  | append_singleton ls l ih =>
    rw [expectedCalls_snoc, List.filter_append, List.map_append, ih, countOf_snoc]
    by_cases hk : (typeOf l).isKnown = true
    · by_cases he : typeOf l = t
      · subst he
        simp [hk, List.range_succ]
      · simp [hk, he]
    · have he : typeOf l ≠ t := by
        intro h
        rw [h] at hk
        exact hk ht
      simp [hk, he]

/-- C2: for every registry, the `sendToProgram` calls of `sendLightsToShader`
are, in registry order, one call for each registry entry of a known variant,
with index the number of entries of the same variant before it; all of them go
to the lighting program; for each known variant the indices used are
0, 1, ..., n-1 with n the number of lights of that variant; an entry of
unknown variant is never packed. -/
theorem sendLightsToShader_indices (self : SceneLighting g) (w : World g) :
    sendCalls (callsSince w (self.sendLightsToShader w)) =
      expectedCalls w.lightType self.lights ∧
    (sendCalls (callsSince w (self.sendLightsToShader w))).map Prod.fst =
      self.lights.filter (fun l => (w.lightType l).isKnown) ∧
    (∀ (l : Ptr) (i : Int) (p : Ptr),
      Call.sendToProgram l i p ∈ callsSince w (self.sendLightsToShader w) →
        p = self.program) ∧
    (∀ t : LightType, t.isKnown = true →
      ((sendCalls (callsSince w (self.sendLightsToShader w))).filter
          (fun p => decide (w.lightType p.1 = t))).map Prod.snd =
        (List.range (countOf w.lightType t self.lights)).map Int.ofNat) ∧
    (∀ p ∈ sendCalls (callsSince w (self.sendLightsToShader w)),
      (w.lightType p.1).isKnown = true ∧ 0 ≤ p.2 ∧
        p.2 < (countOf w.lightType (w.lightType p.1) self.lights : Nat)) := by
  obtain ⟨loop, h1, h2, h3⟩ := sendLightsToShader_eq self w
  have hs : sendCalls (callsSince w (self.sendLightsToShader w)) =
      expectedCalls w.lightType self.lights := by
    rw [h1, callsSince_append, sendCalls_append, h2]
    simp [sendCalls]
  refine ⟨hs, ?_, ?_, ?_, ?_⟩
  · rw [hs, expectedCalls_fst]
  · intro l i p hmem
    rw [h1, callsSince_append] at hmem
    rcases List.mem_append.mp hmem with hm | hm
    · simpa [isLoopCall] using h3 _ hm
    · simp at hm
  · intro t ht
    rw [hs]
    exact expectedCalls_dense w.lightType t ht self.lights
  · intro p hp
    rw [hs] at hp
    have hk : (w.lightType p.1).isKnown = true := by
      have : p.1 ∈ (expectedCalls w.lightType self.lights).map Prod.fst :=
        List.mem_map_of_mem Prod.fst hp
      rw [expectedCalls_fst] at this
      simpa using (List.mem_filter.mp this).2
    have hd := expectedCalls_dense w.lightType (w.lightType p.1) hk self.lights
    have hin : p.2 ∈ ((expectedCalls w.lightType self.lights).filter
        (fun q => decide (w.lightType q.1 = w.lightType p.1))).map Prod.snd := by
      apply List.mem_map_of_mem Prod.snd
      exact List.mem_filter.mpr ⟨hp, by simp⟩
    rw [hd] at hin
    obtain ⟨n, hn, hnp⟩ := List.mem_map.mp hin
    have hn2 : n < countOf w.lightType (w.lightType p.1) self.lights := List.mem_range.mp hn
    refine ⟨hk, ?_, ?_⟩
    · rw [← hnp]; exact Int.ofNat_nonneg n
    · rw [← hnp]; exact Int.ofNat_lt.mpr hn2

/-! ## `removeLight` -/

/-- `removeLight` never takes its not-found branch: the iterator `std::find`
returns is never past `end()`. -/
theorem removeLight_never_not_found (self : SceneLighting g) (light : Ptr)
    (s : SceneLighting g) : self.removeLight light ≠ .ok (-1, s) := by
  unfold SceneLighting.removeLight stdFind
  have hle : ¬ List.indexOf light self.lights > self.lights.length :=
    Nat.not_lt.mpr List.indexOf_le_length
  simp only [hle, if_false]
  cases vectorErase self.lights (List.indexOf light self.lights) with
  | error e => simp
  | ok ls => simp

/-- C3 (what the code does): for a light that is not in the registry,
`removeLight` does not return -1 with the registry unchanged; `std::find`
returns `end()`, the test `position > end()` is false, and the call goes on to
`erase(end())`, which is undefined behaviour. On no registry and no light
does `removeLight` return -1. -/
theorem removeLight_absent (self : SceneLighting g) (light : Ptr)
    (h : light ∉ self.lights) :
    self.removeLight light = .error .undefinedBehaviour ∧
      self.removeLight light ≠ .ok (-1, self) ∧
      ∀ (other : SceneLighting g) (l : Ptr) (s : SceneLighting g),
        other.removeLight l ≠ .ok (-1, s) := by
  have hidx : List.indexOf light self.lights = self.lights.length :=
    List.indexOf_eq_length.mpr h
  have h1 : self.removeLight light = .error .undefinedBehaviour := by
    simp [SceneLighting.removeLight, stdFind, vectorErase, hidx]
  exact ⟨h1, by rw [h1]; simp, removeLight_never_not_found⟩

/-- C3 at a concrete input: removing light 21 from the registry `[20]`. -/
theorem removeLight_absent_witness :
    (21 : Ptr) ∉ ({ demoPass with lights := [20] } : SceneLighting intGlm).lights ∧
    (({ demoPass with lights := [20] } : SceneLighting intGlm).removeLight 21 =
        .error .undefinedBehaviour ∧
      ({ demoPass with lights := [20] } : SceneLighting intGlm).removeLight 21 ≠
        .ok (-1, { demoPass with lights := [20] }) ∧
      ∀ (other : SceneLighting intGlm) (l : Ptr) (s : SceneLighting intGlm),
        other.removeLight l ≠ .ok (-1, s)) :=
  ⟨by decide, removeLight_absent _ 21 (by decide)⟩

theorem removeLight_of_mem (self : SceneLighting g) (light : Ptr)
    (h : light ∈ self.lights) :
    self.removeLight light = .ok (0, { self with lights := self.lights.erase light }) := by
  have hidx : List.indexOf light self.lights < self.lights.length :=
    List.indexOf_lt_length.mpr h
  have hle : ¬ List.indexOf light self.lights > self.lights.length :=
    Nat.not_lt.mpr List.indexOf_le_length
  simp [SceneLighting.removeLight, stdFind, vectorErase, hidx, hle]

theorem sendCalls_sendLightsToShader (self : SceneLighting g) (w : World g) :
    (sendCalls (callsSince w (self.sendLightsToShader w))).map Prod.fst =
      self.lights.filter (fun l => (w.lightType l).isKnown) := by
  obtain ⟨loop, h1, h2, _⟩ := sendLightsToShader_eq self w
  rw [h1, callsSince_append, sendCalls_append, h2, ← expectedCalls_fst]
  simp [sendCalls]

theorem mem_sendCalls (cs : List (Call g)) (l : Ptr) (i : Int) (p : Ptr)
    (h : Call.sendToProgram l i p ∈ cs) : (l, i) ∈ sendCalls cs := by
  unfold sendCalls
  rw [List.mem_filterMap]
  exact ⟨_, h, rfl⟩

/-- C4 (the claim fails on a light added twice): removing light 21 from the
registry `[21, 21]` returns 0 and leaves `[21]`, and the following
`sendLightsToShader` still packs light 21. -/
theorem removeLight_duplicate_still_packed :
    (21 : Ptr) ∈ ({ demoPass with lights := [21, 21] } : SceneLighting intGlm).lights ∧
    ({ demoPass with lights := [21, 21] } : SceneLighting intGlm).removeLight 21 =
      .ok (0, { demoPass with lights := [21] }) ∧
    callsSince demoWorld
        (({ demoPass with lights := [21] } : SceneLighting intGlm).sendLightsToShader demoWorld) =
      [.sendToProgram 21 0 1, .setUniformVec 1 "LightCount" [0, 1, 0]] :=
  ⟨by decide, rfl, rfl⟩

/-- C4 (amended): for a light that is in the registry, `removeLight` returns 0
and erases its first occurrence, so the length of the registry drops by one;
when the light was in the registry exactly once, a following
`sendLightsToShader` makes no `sendToProgram` call on it; in general the
number of times it is packed afterwards is its number of occurrences minus
one when its variant is known, and zero otherwise. -/
theorem removeLight_present (self : SceneLighting g) (light : Ptr)
    (h : light ∈ self.lights) :
    self.removeLight light = .ok (0, { self with lights := self.lights.erase light }) ∧
    (self.lights.erase light).length + 1 = self.lights.length ∧
    (self.lights.count light = 1 → ∀ (w : World g) (i : Int) (p : Ptr),
      Call.sendToProgram light i p ∉ callsSince w
        (({ self with lights := self.lights.erase light } : SceneLighting g).sendLightsToShader
          w)) ∧
    (∀ w : World g,
      ((sendCalls (callsSince w
        (({ self with lights := self.lights.erase light } : SceneLighting g).sendLightsToShader
          w))).map Prod.fst).count light =
        if (w.lightType light).isKnown then self.lights.count light - 1 else 0) := by
  refine ⟨removeLight_of_mem self light h, ?_, ?_, ?_⟩
  · rw [List.length_erase_of_mem h]
    have : 0 < self.lights.length := List.length_pos_of_mem h
    omega
  · intro hc w i p hmem
    have h1 := List.mem_map_of_mem Prod.fst (mem_sendCalls _ _ _ _ hmem)
    rw [sendCalls_sendLightsToShader] at h1
    have h2 : light ∈ self.lights.erase light := (List.mem_filter.mp h1).1
    have h3 : (self.lights.erase light).count light = 0 := by
      rw [List.count_erase_self, hc]
    exact List.not_mem_of_count_eq_zero h3 h2
  · intro w
    rw [sendCalls_sendLightsToShader]
    by_cases hk : (w.lightType light).isKnown = true
    · rw [List.count_filter (by simpa using hk), List.count_erase_self]
      simp [hk]
    · have : light ∉ List.filter (fun l => (w.lightType l).isKnown)
          (self.lights.erase light) := by
        intro hm
        exact hk (by simpa using (List.mem_filter.mp hm).2)
      rw [List.count_eq_zero_of_not_mem this]
      simp [hk]

/-- C4 (amended) at a concrete input: removing light 21 from `[20, 21, 22]`. -/
theorem removeLight_present_witness :
    (21 : Ptr) ∈ demoPass3.lights ∧
    (demoPass3.removeLight 21 =
      .ok (0, { demoPass3 with lights := demoPass3.lights.erase 21 }) ∧
    (demoPass3.lights.erase 21).length + 1 = demoPass3.lights.length ∧
    (demoPass3.lights.count 21 = 1 → ∀ (w : World intGlm) (i : Int) (p : Ptr),
      Call.sendToProgram 21 i p ∉ callsSince w
        (({ demoPass3 with lights := demoPass3.lights.erase 21 } :
          SceneLighting intGlm).sendLightsToShader w)) ∧
    (∀ w : World intGlm,
      ((sendCalls (callsSince w
        (({ demoPass3 with lights := demoPass3.lights.erase 21 } :
          SceneLighting intGlm).sendLightsToShader w))).map Prod.fst).count 21 =
        if (w.lightType 21).isKnown then demoPass3.lights.count 21 - 1 else 0)) :=
  ⟨by decide, removeLight_present demoPass3 21 (by decide)⟩

/-! ## `HDRRenderer::setDepthBuffer` -/

/-- C5 (what the code does): when a depth texture A is already recorded and a
different texture is passed, `setDepthBuffer` attaches A again, checks
completeness and returns; the texture passed is neither attached nor
recorded. -/
theorem setDepthBuffer_change (self : HDRRenderer) (w : World g) (depth : Ptr)
    (hasStencil : Bool) (hA : self.inDepth ≠ NULL) (hne : self.inDepth ≠ depth) :
    self.setDepthBuffer w depth hasStencil =
      (if w.fbComplete (w.calls ++ [.attachTexture2D self.inFBO self.inDepth .DepthStencil])
       then .ok (self, { w with calls := w.calls ++
              [.attachTexture2D self.inFBO self.inDepth .DepthStencil, .isComplete] })
       else .error .assertionFailed) ∧
    ∀ r, self.setDepthBuffer w depth hasStencil = .ok r →
      r.1.inDepth = self.inDepth ∧ r.1.inDepth ≠ depth ∧
        Call.attachTexture2D self.inFBO depth .DepthStencil ∉ callsSince w r.2 := by
  have h1 : self.setDepthBuffer w depth hasStencil =
      (if w.fbComplete (w.calls ++ [.attachTexture2D self.inFBO self.inDepth .DepthStencil])
       then .ok (self, { w with calls := w.calls ++
              [.attachTexture2D self.inFBO self.inDepth .DepthStencil, .isComplete] })
       else .error .assertionFailed) := by
    by_cases hc : w.fbComplete
        (w.calls ++ [.attachTexture2D self.inFBO self.inDepth .DepthStencil]) = true <;>
      simp [HDRRenderer.setDepthBuffer, assertComplete, World.emit, hne, hA, hc]
  refine ⟨h1, ?_⟩
  intro r hr
  rw [h1] at hr
  split at hr
  · injection hr with hr
    subst hr
    refine ⟨rfl, hne, ?_⟩
    rw [callsSince_append]
    simp
    exact fun h => hne h.symm
  · exact Except.noConfusion hr

/-- C5 at a concrete input: depth texture 5 recorded, texture 6 passed. -/
theorem setDepthBuffer_change_witness :
    ({ demoHDR with inDepth := 5 } : HDRRenderer).inDepth ≠ NULL ∧
    ({ demoHDR with inDepth := 5 } : HDRRenderer).inDepth ≠ 6 ∧
    (({ demoHDR with inDepth := 5 } : HDRRenderer).setDepthBuffer demoWorld 6 true =
      (if demoWorld.fbComplete (demoWorld.calls ++ [.attachTexture2D 32 5 .DepthStencil])
       then .ok ({ demoHDR with inDepth := 5 }, { demoWorld with calls := demoWorld.calls ++
              [.attachTexture2D 32 5 .DepthStencil, .isComplete] })
       else .error .assertionFailed) ∧
    ∀ r, ({ demoHDR with inDepth := 5 } : HDRRenderer).setDepthBuffer demoWorld 6 true = .ok r →
      r.1.inDepth = 5 ∧ r.1.inDepth ≠ 6 ∧
        Call.attachTexture2D 32 6 .DepthStencil ∉ callsSince demoWorld r.2) :=
  ⟨by decide, by decide,
    setDepthBuffer_change { demoHDR with inDepth := 5 } demoWorld 6 true (by decide) (by decide)⟩

/-- C6: with no depth buffer recorded and a non-null texture `tex`, as long as
the framebuffer is complete after the attach (so that the assertion lets the
run go on), the first `setDepthBuffer(tex, h)` returns having logged exactly:
bind of the framebuffer, attach of `tex` to DepthStencil, completeness check,
unbind; it records `tex`. A second `setDepthBuffer(tex, h2)` returns with the
renderer and the world as the first call left them. Over both calls there is
one `attachTexture2D` and one completeness check. -/
theorem setDepthBuffer_twice (self : HDRRenderer) (w : World g) (tex : Ptr) (h h2 : Bool)
    (hnull : self.inDepth = NULL) (htex : tex ≠ NULL)
    (hok : w.fbComplete (w.calls ++
      [.fboBindRW self.inFBO, .attachTexture2D self.inFBO tex .DepthStencil]) = true) :
    ∃ r1 : HDRRenderer × World g,
      self.setDepthBuffer w tex h = .ok r1 ∧
      r1.1 = { self with inDepth := tex } ∧
      callsSince w r1.2 = [.fboBindRW self.inFBO,
        .attachTexture2D self.inFBO tex .DepthStencil, .isComplete, .fboUnbindRW] ∧
      r1.1.setDepthBuffer r1.2 tex h2 = .ok r1 ∧
      (callsSince w r1.2).countP isAttach = 1 ∧
      (callsSince w r1.2).countP isCheck = 1 := by
  have hne : ¬ NULL = tex := fun e => htex e.symm
  refine ⟨({ self with inDepth := tex },
        { w with calls := w.calls ++ [.fboBindRW self.inFBO,
            .attachTexture2D self.inFBO tex .DepthStencil, .isComplete, .fboUnbindRW] }),
      ?_, rfl, ?_, ?_, ?_, ?_⟩
  · simp [HDRRenderer.setDepthBuffer, assertComplete, World.emit, hne, hnull, hok]
  · rw [callsSince_append]
  · simp [HDRRenderer.setDepthBuffer]
  · rw [callsSince_append]; simp [isAttach]
  · rw [callsSince_append]; simp [isCheck]

/-- C6 at a concrete input: texture 5 on a HDR pass with no depth buffer. -/
theorem setDepthBuffer_twice_witness :
    demoHDR.inDepth = NULL ∧ (5 : Ptr) ≠ NULL ∧
    demoWorld.fbComplete (demoWorld.calls ++
      [.fboBindRW demoHDR.inFBO, .attachTexture2D demoHDR.inFBO 5 .DepthStencil]) = true ∧
    ∃ r1 : HDRRenderer × World intGlm,
      demoHDR.setDepthBuffer demoWorld 5 true = .ok r1 ∧
      r1.1 = { demoHDR with inDepth := 5 } ∧
      callsSince demoWorld r1.2 = [.fboBindRW demoHDR.inFBO,
        .attachTexture2D demoHDR.inFBO 5 .DepthStencil, .isComplete, .fboUnbindRW] ∧
      r1.1.setDepthBuffer r1.2 5 false = .ok r1 ∧
      (callsSince demoWorld r1.2).countP isAttach = 1 ∧
      (callsSince demoWorld r1.2).countP isCheck = 1 :=
  ⟨rfl, by decide, rfl,
    setDepthBuffer_twice demoHDR demoWorld 5 true false rfl (by decide) rfl⟩

/-! ## `SceneLighting::setShadowTexture` -/

/-- C7: when the shadow texture already is the non-null texture `T`,
`setShadowTexture(T, M2)` returns with the pass state it was called on, so
with the same stored texture and the same cached light-space transform,
whatever `M2` is; it logs the program bind, the `gShadowMap` uniform with the
unit of `T`, and the `lightToViewMtx` uniform. -/
theorem setShadowTexture_same (self : SceneLighting g) (w : World g) (T : Ptr) (M2 : g.Mat4)
    (hT : T ≠ NULL) (hsame : self.shadowTexture = T) :
    ∃ r : SceneLighting g × World g,
      self.setShadowTexture w T M2 = .ok r ∧
      r.1 = self ∧
      r.1.shadowTexture = T ∧
      r.1.shadowLightSpaceTransform = self.shadowLightSpaceTransform ∧
      callsSince w r.2 = [.programBind self.program,
        .setUniform1i self.program "gShadowMap" (w.unit T),
        .setUniformMatrix self.program "lightToViewMtx" (g.inverse M2)] := by
  refine ⟨(self, { w with calls := w.calls ++ [.programBind self.program,
        .setUniform1i self.program "gShadowMap" (w.unit T),
        .setUniformMatrix self.program "lightToViewMtx" (g.inverse M2)] }),
      ?_, rfl, hsame, rfl, ?_⟩
  · subst hsame
    simp [SceneLighting.setShadowTexture, World.emit, hT]
  · rw [callsSince_append]

/-- C7 at a concrete input: shadow texture 5 cached with matrix 1, then set
again with matrix 2. -/
theorem setShadowTexture_same_witness :
    (5 : Ptr) ≠ NULL ∧
    ({ demoPass with shadowTexture := 5, shadowLightSpaceTransform := 1 } :
      SceneLighting intGlm).shadowTexture = 5 ∧
    ∃ r : SceneLighting intGlm × World intGlm,
      ({ demoPass with shadowTexture := 5, shadowLightSpaceTransform := 1 } :
        SceneLighting intGlm).setShadowTexture demoWorld 5 2 = .ok r ∧
      r.1 = { demoPass with shadowTexture := 5, shadowLightSpaceTransform := 1 } ∧
      r.1.shadowTexture = 5 ∧
      r.1.shadowLightSpaceTransform = 1 ∧
      callsSince demoWorld r.2 = [.programBind 1,
        .setUniform1i 1 "gShadowMap" 5,
        .setUniformMatrix 1 "lightToViewMtx" (-2)] :=
  ⟨by decide, rfl,
    setShadowTexture_same { demoPass with shadowTexture := 5, shadowLightSpaceTransform := 1 }
      demoWorld 5 2 (by decide) rfl⟩

/-- C10: for a non-null texture, the `lightToViewMtx` uniform `setShadowTexture`
sends is the inverse of the matrix passed to this very call, whatever
transform is cached. So when a first call stores `(T, M)` and a second call
passes the same `T` with a matrix `M2`, the second call sends the inverse of
`M2` while the cached transform is still `M`; if the two inverses differ, the
uniform sent is not the inverse of the cached transform. -/
theorem setShadowTexture_uniform_from_argument (self : SceneLighting g) (w : World g)
    (T : Ptr) (M M2 : g.Mat4) (hT : T ≠ NULL) :
    (∃ r : SceneLighting g × World g,
      self.setShadowTexture w T M = .ok r ∧
      r.1.shadowTexture = T ∧
      callsSince w r.2 = [.programBind self.program,
        .setUniform1i self.program "gShadowMap" (w.unit T),
        .setUniformMatrix self.program "lightToViewMtx" (g.inverse M)]) ∧
    (self.shadowTexture ≠ T →
      ∃ r1 r2 : SceneLighting g × World g,
        self.setShadowTexture w T M = .ok r1 ∧
        r1.1.shadowLightSpaceTransform = M ∧
        r1.1.setShadowTexture r1.2 T M2 = .ok r2 ∧
        r2.1.shadowLightSpaceTransform = M ∧
        callsSince r1.2 r2.2 = [.programBind self.program,
          .setUniform1i self.program "gShadowMap" (w.unit T),
          .setUniformMatrix self.program "lightToViewMtx" (g.inverse M2)] ∧
        (g.inverse M2 ≠ g.inverse M →
          g.inverse M2 ≠ g.inverse r2.1.shadowLightSpaceTransform)) := by
  constructor
  · by_cases hs : self.shadowTexture = T
    · refine ⟨(self, { w with calls := w.calls ++ [.programBind self.program,
        .setUniform1i self.program "gShadowMap" (w.unit T),
        .setUniformMatrix self.program "lightToViewMtx" (g.inverse M)] }), ?_, hs, ?_⟩
      · subst hs
        simp [SceneLighting.setShadowTexture, World.emit, hT]
      · rw [callsSince_append]
    · refine ⟨({ self with shadowTexture := T, shadowLightSpaceTransform := M },
        { w with calls := w.calls ++ [.programBind self.program,
        .setUniform1i self.program "gShadowMap" (w.unit T),
        .setUniformMatrix self.program "lightToViewMtx" (g.inverse M)] }), ?_, rfl, ?_⟩
      · simp [SceneLighting.setShadowTexture, World.emit, hT, hs]
      · rw [callsSince_append]
  · intro hs
    refine ⟨({ self with shadowTexture := T, shadowLightSpaceTransform := M },
        { w with calls := w.calls ++ [.programBind self.program,
        .setUniform1i self.program "gShadowMap" (w.unit T),
        .setUniformMatrix self.program "lightToViewMtx" (g.inverse M)] }),
      ({ self with shadowTexture := T, shadowLightSpaceTransform := M },
        { w with calls := (w.calls ++ [.programBind self.program,
        .setUniform1i self.program "gShadowMap" (w.unit T),
        .setUniformMatrix self.program "lightToViewMtx" (g.inverse M)]) ++
        [.programBind self.program,
        .setUniform1i self.program "gShadowMap" (w.unit T),
        .setUniformMatrix self.program "lightToViewMtx" (g.inverse M2)] }),
      ?_, rfl, ?_, rfl, ?_, ?_⟩
    · simp [SceneLighting.setShadowTexture, World.emit, hT, hs]
    · simp [SceneLighting.setShadowTexture, World.emit, hT]
    · simp [callsSince]
    · exact fun h => h

/-- C10 at a concrete input: texture 5 first set with matrix 1, then with
matrix 2; the second call sends -2 while the cached transform is 1. -/
theorem setShadowTexture_uniform_from_argument_witness :
    (5 : Ptr) ≠ NULL ∧ demoPass.shadowTexture ≠ 5 ∧
    intGlm.inverse (2 : Int) ≠ intGlm.inverse (1 : Int) ∧
    ∃ r1 r2 : SceneLighting intGlm × World intGlm,
      demoPass.setShadowTexture demoWorld 5 1 = .ok r1 ∧
      r1.1.shadowLightSpaceTransform = 1 ∧
      r1.1.setShadowTexture r1.2 5 2 = .ok r2 ∧
      r2.1.shadowLightSpaceTransform = 1 ∧
      callsSince r1.2 r2.2 = [.programBind 1,
        .setUniform1i 1 "gShadowMap" 5,
        .setUniformMatrix 1 "lightToViewMtx" (-2)] ∧
      (intGlm.inverse (2 : Int) ≠ intGlm.inverse (1 : Int) →
        intGlm.inverse (2 : Int) ≠ intGlm.inverse r2.1.shadowLightSpaceTransform) :=
  ⟨by decide, by decide, by decide,
    (setShadowTexture_uniform_from_argument demoPass demoWorld 5 1 2 (by decide)).2
      (by decide)⟩

/-! ## `render` and the frame -/

theorem emit_eq_extend (w : World g) (c : Call g) : w.emit c = w.extend [c] [] := by
  simp [World.emit, World.extend]

theorem glDrawArrays_eq_extend (m : DrawMode) (f c : Int) (w : World g) :
    glDrawArrays m f c w = w.extend [.glDrawArrays m f c] [⟨m, f, c, w.depthMask⟩] := by
  simp [glDrawArrays, World.emit, World.extend]

theorem extend_extend (w : World g) (a c : List (Call g)) (b d : List Draw) :
    (w.extend a b).extend c d = w.extend (a ++ c) (b ++ d) := by
  simp [World.extend, List.append_assoc]

theorem extend_depthMask (w : World g) (a : List (Call g)) (b : List Draw) :
    (w.extend a b).depthMask = w.depthMask := rfl

theorem extend_unit (w : World g) (a : List (Call g)) (b : List Draw) :
    (w.extend a b).unit = w.unit := rfl

theorem extend_lightType (w : World g) (a : List (Call g)) (b : List Draw) :
    (w.extend a b).lightType = w.lightType := rfl

theorem callsSince_extend (w : World g) (a : List (Call g)) (b : List Draw) :
    callsSince w (w.extend a b) = a := by
  simp [callsSince, World.extend]

theorem drawsSince_extend (w : World g) (a : List (Call g)) (b : List Draw) :
    drawsSince w (w.extend a b) = b := by
  simp [drawsSince, World.extend]

theorem loopCalls_spec (self : SceneLighting g) (w : World g) :
    sendCalls (loopCalls self w) = expectedCalls w.lightType self.lights ∧
      ∀ c ∈ loopCalls self w, isLoopCall self.program c = true := by
  obtain ⟨new, h1, h2, h3⟩ := foldl_sendLightStep self.program w self.lights
  have : loopCalls self w = new := by
    unfold loopCalls
    rw [h1]
    exact callsSince_append w new
  rw [this]
  exact ⟨h2, h3⟩

theorem sendLightsToShader_extend (self : SceneLighting g) (w : World g) :
    self.sendLightsToShader w =
      w.extend (loopCalls self w ++ [.setUniformVec self.program "LightCount"
          (g.vec3i (countOf w.lightType .Directional self.lights : Nat)
            (countOf w.lightType .Point self.lights : Nat)
            (countOf w.lightType .Spot self.lights : Nat))]) [] := by
  obtain ⟨new, h1, _, _⟩ := foldl_sendLightStep self.program w self.lights
  have : loopCalls self w = new := by
    unfold loopCalls
    rw [h1]
    exact callsSince_append w new
  rw [this]
  simp [SceneLighting.sendLightsToShader, h1, World.emit, World.extend, List.append_assoc]

theorem render_eq (self : SceneLighting g) (w : World g) :
    self.render w =
      w.extend (renderHead self ++
        (loopCalls self (w.extend (renderHead self) []) ++
          (Call.setUniformVec self.program "LightCount"
            (g.vec3i (countOf w.lightType .Directional self.lights : Nat)
              (countOf w.lightType .Point self.lights : Nat)
              (countOf w.lightType .Spot self.lights : Nat)) :: renderTail self w.unit)))
        [⟨.GL_TRIANGLE_STRIP, 0, 4, w.depthMask⟩, ⟨.GL_TRIANGLES, 0, 36, w.depthMask⟩] := by
  by_cases hs : self.shadowTexture = NULL
  · simp only [SceneLighting.render, SceneLighting.renderSkybox, emit_eq_extend,
      glDrawArrays_eq_extend, extend_extend, sendLightsToShader_extend, extend_depthMask,
      extend_unit, extend_lightType, hs, ne_eq, not_true_eq_false, if_false]
    simp [renderHead, renderTail, hs]
  · simp only [SceneLighting.render, SceneLighting.renderSkybox, emit_eq_extend,
      glDrawArrays_eq_extend, extend_extend, sendLightsToShader_extend, extend_depthMask,
      extend_unit, extend_lightType, hs, ne_eq, not_false_eq_true, if_true]
    simp [renderHead, renderTail, hs]
theorem setUpTestLights_lights (self : SceneLighting g) (w : World g) :
    (self.setUpTestLights w).1.lights =
      self.lights ++ [w.nextAddr, w.nextAddr + 1, w.nextAddr + 2, w.nextAddr + 3,
        w.nextAddr + 4, w.nextAddr + 5] := by
  simp [SceneLighting.setUpTestLights, setUpPointLight, newLight, World.emit,
    SceneLighting.addLight, List.range_succ]

theorem setUpTestLights_lightType (self : SceneLighting g) (w : World g) :
    (self.setUpTestLights w).2.lightType w.nextAddr = .Directional ∧
    (self.setUpTestLights w).2.lightType (w.nextAddr + 1) = .Spot ∧
    (self.setUpTestLights w).2.lightType (w.nextAddr + 2) = .Point ∧
    (self.setUpTestLights w).2.lightType (w.nextAddr + 3) = .Point ∧
    (self.setUpTestLights w).2.lightType (w.nextAddr + 4) = .Point ∧
    (self.setUpTestLights w).2.lightType (w.nextAddr + 5) = .Point := by
  simp only [SceneLighting.setUpTestLights, setUpPointLight, newLight, World.emit,
    SceneLighting.addLight, List.range_succ, List.range_zero, List.nil_append,
    List.cons_append, List.foldl_cons, List.foldl_nil]
  refine ⟨?_, ?_, ?_, ?_, ?_, ?_⟩ <;> split_ifs <;> first | rfl | (rename_i h; change (_ : Nat) = _ at h; omega)

theorem setUpTestLights_counts (self : SceneLighting g) (w : World g) (h : self.lights = []) :
    countOf (self.setUpTestLights w).2.lightType .Directional (self.setUpTestLights w).1.lights = 1 ∧
    countOf (self.setUpTestLights w).2.lightType .Point (self.setUpTestLights w).1.lights = 4 ∧
    countOf (self.setUpTestLights w).2.lightType .Spot (self.setUpTestLights w).1.lights = 1 := by
  obtain ⟨h0, h1, h2, h3, h4, h5⟩ := setUpTestLights_lightType self w
  rw [setUpTestLights_lights, h]
  simp [countOf, List.countP_cons, h0, h1, h2, h3, h4, h5]

theorem loopCalls_filter_lightCount (self : SceneLighting g) (w : World g) :
    (loopCalls self w).filter isLightCount = [] := by
  rw [List.filter_eq_nil_iff]
  intro c hc
  simp [isLoopCall_not_lightCount self.program c ((loopCalls_spec self w).2 c hc)]

theorem loopCalls_filter_draw (self : SceneLighting g) (w : World g) :
    (loopCalls self w).filter isDraw = [] := by
  rw [List.filter_eq_nil_iff]
  intro c hc
  simp [isLoopCall_not_draw self.program c ((loopCalls_spec self w).2 c hc)]

theorem loopCalls_filter_depthMask (self : SceneLighting g) (w : World g) :
    (loopCalls self w).filter isDepthMask = [] := by
  rw [List.filter_eq_nil_iff]
  intro c hc
  have h := (loopCalls_spec self w).2 c hc
  cases c <;> simp_all [isLoopCall, isDepthMask]

theorem renderHead_filters (self : SceneLighting g) :
    (renderHead self).filter isDraw = [] ∧ (renderHead self).filter isLightCount = [] ∧
      (renderHead self).filter isDepthMask = [] := by
  by_cases hs : self.shadowTexture = NULL <;>
    simp [renderHead, hs, isDraw, isLightCount, isDepthMask, List.filter_cons]

theorem renderTail_filters (self : SceneLighting g) (unit : Ptr → Int) :
    (renderTail self unit).filter isDraw =
        [.glDrawArrays .GL_TRIANGLE_STRIP 0 4, .glDrawArrays .GL_TRIANGLES 0 36] ∧
      (renderTail self unit).filter isLightCount = [] ∧
      (renderTail self unit).filter isDepthMask = [] := by
  simp [renderTail, isDraw, isLightCount, isDepthMask, List.filter_cons]

/-- C8: on a pass whose registry was empty when `setUpTestLights` ran (the
last statement of the constructor), one `render()` logs two `glDrawArrays`
calls, first the 4-vertex triangle strip and then the 36-vertex triangle
draw, and one `LightCount` uniform, `glm::vec3(1, 4, 1)`, which comes before
both draws. -/
theorem render_fresh (self0 : SceneLighting g) (w0 : World g) (h : self0.lights = []) :
    (callsSince (self0.setUpTestLights w0).2
        ((self0.setUpTestLights w0).1.render (self0.setUpTestLights w0).2)).filter isDraw =
      [.glDrawArrays .GL_TRIANGLE_STRIP 0 4, .glDrawArrays .GL_TRIANGLES 0 36] ∧
    (callsSince (self0.setUpTestLights w0).2
        ((self0.setUpTestLights w0).1.render (self0.setUpTestLights w0).2)).filter isLightCount =
      [.setUniformVec (self0.setUpTestLights w0).1.program "LightCount" (g.vec3i 1 4 1)] ∧
    (∃ pre post : List (Call g),
      callsSince (self0.setUpTestLights w0).2
          ((self0.setUpTestLights w0).1.render (self0.setUpTestLights w0).2) =
        pre ++ .setUniformVec (self0.setUpTestLights w0).1.program "LightCount"
          (g.vec3i 1 4 1) :: post ∧
      pre.filter isDraw = [] ∧ pre.filter isLightCount = [] ∧
      post.filter isLightCount = [] ∧
      post.filter isDraw =
        [.glDrawArrays .GL_TRIANGLE_STRIP 0 4, .glDrawArrays .GL_TRIANGLES 0 36]) ∧
    (drawsSince (self0.setUpTestLights w0).2
        ((self0.setUpTestLights w0).1.render (self0.setUpTestLights w0).2)).map
        (fun d => (d.mode, d.first, d.count)) =
      [(.GL_TRIANGLE_STRIP, 0, 4), (.GL_TRIANGLES, 0, 36)] := by
  obtain ⟨hD, hP, hS⟩ := setUpTestLights_counts self0 w0 h
  have hH := renderHead_filters (self0.setUpTestLights w0).1
  have hT := renderTail_filters (self0.setUpTestLights w0).1 (self0.setUpTestLights w0).2.unit
  rw [render_eq, callsSince_extend, drawsSince_extend, hD, hP, hS]
  refine ⟨?_, ?_, ⟨_, _, (List.append_assoc _ _ _).symm, ?_, ?_, hT.2.1, hT.1⟩, ?_⟩
  · simp [List.filter_append, List.filter_cons, hH.1, hT.1, loopCalls_filter_draw, isDraw]
  · simp [List.filter_append, List.filter_cons, hH.2.1, hT.2.1, loopCalls_filter_lightCount,
      isLightCount]
  · simp [List.filter_append, hH.1, loopCalls_filter_draw]
  · simp [List.filter_append, hH.2.1, loopCalls_filter_lightCount]
  · simp

/-- C8 at a concrete input: the test lights set up on `demoPass` in
`demoWorld`, then one `render()`. -/
theorem render_fresh_witness :
    demoPass.lights = [] ∧
    ((callsSince demoFresh.2 (demoFresh.1.render demoFresh.2)).filter isDraw =
      [.glDrawArrays .GL_TRIANGLE_STRIP 0 4, .glDrawArrays .GL_TRIANGLES 0 36] ∧
    (callsSince demoFresh.2 (demoFresh.1.render demoFresh.2)).filter isLightCount =
      [.setUniformVec demoFresh.1.program "LightCount" (intGlm.vec3i 1 4 1)] ∧
    (∃ pre post : List (Call intGlm),
      callsSince demoFresh.2 (demoFresh.1.render demoFresh.2) =
        pre ++ .setUniformVec demoFresh.1.program "LightCount" (intGlm.vec3i 1 4 1) :: post ∧
      pre.filter isDraw = [] ∧ pre.filter isLightCount = [] ∧
      post.filter isLightCount = [] ∧
      post.filter isDraw =
        [.glDrawArrays .GL_TRIANGLE_STRIP 0 4, .glDrawArrays .GL_TRIANGLES 0 36]) ∧
    (drawsSince demoFresh.2 (demoFresh.1.render demoFresh.2)).map
        (fun d => (d.mode, d.first, d.count)) =
      [(.GL_TRIANGLE_STRIP, 0, 4), (.GL_TRIANGLES, 0, 36)]) :=
  ⟨rfl, render_fresh demoPass demoWorld rfl⟩

/-- C9: `beforeRender` leaves the depth-write mask disabled; `render` makes no
`glDepthMask` call and leaves the mask as it found it, and its two draws, the
skybox draw included, run under the mask `render` was entered with, so with
depth writes disabled after `beforeRender`; `afterRender` leaves the mask
enabled, and so does the sequence `beforeRender; render; afterRender` from
any starting state. -/
theorem depthMask_frame (self : SceneLighting g) (w : World g) :
    (self.beforeRender w).depthMask = false ∧
    (self.render w).depthMask = w.depthMask ∧
    (callsSince w (self.render w)).filter isDepthMask = [] ∧
    drawsSince w (self.render w) =
      [⟨.GL_TRIANGLE_STRIP, 0, 4, w.depthMask⟩, ⟨.GL_TRIANGLES, 0, 36, w.depthMask⟩] ∧
    drawsSince (self.beforeRender w) (self.render (self.beforeRender w)) =
      [⟨.GL_TRIANGLE_STRIP, 0, 4, false⟩, ⟨.GL_TRIANGLES, 0, 36, false⟩] ∧
    (self.afterRender w).depthMask = true ∧
    (self.afterRender (self.render (self.beforeRender w))).depthMask = true := by
  have hH := renderHead_filters self
  have hT := renderTail_filters self w.unit
  refine ⟨rfl, ?_, ?_, ?_, ?_, rfl, rfl⟩
  · rw [render_eq]; rfl
  · rw [render_eq, callsSince_extend]
    simp [List.filter_append, List.filter_cons, hH.2.2, hT.2.2, loopCalls_filter_depthMask,
      isDepthMask]
  · rw [render_eq, drawsSince_extend]
  · rw [render_eq, drawsSince_extend]
    rfl

end gfx
